import Mathlib

set_option maxHeartbeats 1000000

/-!
Shallow embedding of the loonieVision adaptive-streaming playback controller
(the HlsPlayer component) and the machinery around it: the VOD/LIVE stream
classifier, the manifest-resolution effect with its cancellation flag, the
per-session event handlers wired onto the hls.js engine (media-attached reset,
VOD stall workaround, fatal-error taxonomy with the media-recovery budget),
the effect cleanup run at teardown, the video-sink listener bookkeeping, the
callback-ref indirection, and the audio-routing effects.

Each definition is translated from the component source; times are modelled as
rationals, JS timers as pending flags plus explicit timer-fired events (a
cleared timer never fires), and the single-threaded event loop as a fold of a
step function over an event list.
-/

namespace LoonieVision

/-- Does the first character list start with the second?
Building block for the JavaScript String.prototype.includes test. -/
def startsWithList : List Char → List Char → Bool
  | _, [] => true
  | [], _ :: _ => false
  | a :: as, b :: bs => a == b && startsWithList as bs

/-- Does the first character list contain the second as a contiguous run? -/
def containsSub : List Char → List Char → Bool
  | [], pat => startsWithList [] pat
  | a :: rest, pat => startsWithList (a :: rest) pat || containsSub rest pat

/-- JavaScript url.includes(pat) over the underlying character lists. -/
def strIncludes (s pat : String) : Bool :=
  containsSub s.data pat.data

/-- Stream classifier, from the source:
url.includes("startTime=") && url.includes("endTime=").
True means the manifest URL is classified ON_DEMAND (VOD), false means LIVE. -/
def isVodStream (url : String) : Bool :=
  strIncludes url "startTime=" && strIncludes url "endTime="

/-- One bitrate/quality option of a resolved manifest (informational only). -/
structure BitrateInfo where
  bitrate : Nat
  width : Nat
  height : Nat
  lines : String
deriving DecidableEq

/-- The manifest descriptor returned by the resolver, from the types module:
url, error_code (0 = success), message (string or null), bitrates. -/
structure StreamManifest where
  url : String
  error_code : Int
  message : Option String
  bitrates : List BitrateInfo
deriving DecidableEq

/-- Owner-visible callback invocations made by the controller. -/
inductive OwnerCall where
  | onError (msg : String)
  | onLoad
  | onManifestLoaded (m : StreamManifest)
deriving DecidableEq

/-- The three useState cells of the controller that the manifest-resolution
effect touches: manifestUrl, isLoadingManifest, manifestError. -/
structure CtrlState where
  manifestUrl : Option String
  isLoadingManifest : Bool
  manifestError : Option String
deriving DecidableEq

/-- Initial controller state: useState(null), useState(true), useState(null). -/
def initCtrl : CtrlState :=
  { manifestUrl := none, isLoadingManifest := true, manifestError := none }

/-- The synchronous start of fetchManifest, before the await:
setIsLoadingManifest(true); setManifestError(null); setManifestUrl(null). -/
def beginResolution (st : CtrlState) : CtrlState :=
  { st with isLoadingManifest := true, manifestError := none, manifestUrl := none }

/-- How the awaited getStreamManifest call can settle: with a descriptor,
by rejecting with an Error value (carrying a message), or by rejecting with
a non-Error value. -/
inductive FetchOutcome where
  | descriptor (m : StreamManifest)
  | rejectedError (message : String)
  | rejectedOther
deriving DecidableEq

/-- JavaScript m || fallback over a string-or-null value: null and the empty
string are falsy, any other string is returned unchanged. -/
def orFallback (m : Option String) (fallback : String) : String :=
  match m with
  | none => fallback
  | some s => if s = "" then fallback else s

/-- Fallback text used when a descriptor carries a nonzero error_code and a
falsy message. -/
def manifestLoadFallbackMsg : String := "Failed to load stream manifest"

/-- Fallback text used when the resolver rejects with a non-Error value. -/
def manifestFetchFallbackMsg : String := "Failed to fetch stream manifest"

/-- The continuation of fetchManifest after the await, including the
isCancelled early returns, the error_code branch, the catch branch with its
instanceof-Error test, and the finally block that ends the loading state.
Returns the updated controller state and the owner callbacks invoked. -/
def settleResolution (isCancelled : Bool) (st : CtrlState) (res : FetchOutcome) :
    CtrlState × List OwnerCall :=
  if isCancelled then (st, [])
  else
    match res with
    | .descriptor m =>
        if m.error_code ≠ 0 then
          ({ st with manifestError := some (orFallback m.message manifestLoadFallbackMsg),
                     isLoadingManifest := false },
           [.onError (orFallback m.message manifestLoadFallbackMsg)])
        else
          ({ st with manifestUrl := some m.url, isLoadingManifest := false },
           [.onManifestLoaded m])
    | .rejectedError emsg =>
        ({ st with manifestError := some emsg, isLoadingManifest := false },
         [.onError emsg])
    | .rejectedOther =>
        ({ st with manifestError := some manifestFetchFallbackMsg,
                   isLoadingManifest := false },
         [.onError manifestFetchFallbackMsg])

/-- What the component renders, from the three return branches at the end of
the component: the loading indicator, the error panel, or the video surface. -/
inductive RenderView where
  | loadingIndicator
  | errorPanel (msg : String)
  | videoSurface
deriving DecidableEq

/-- Render selection: isLoadingManifest first, then manifestError, then the
video surface. -/
def renderView (st : CtrlState) : RenderView :=
  if st.isLoadingManifest then .loadingIndicator
  else
    match st.manifestError with
    | some m => .errorPanel m
    | none => .videoSurface

/-- The video-sink state the session handlers read: the buffered time ranges,
the playhead, and the paused flag. Times are rationals. -/
structure VideoState where
  buffered : List (Rat × Rat)
  currentTime : Rat
  paused : Bool
deriving DecidableEq

/-- video.buffered.start(0): start of the first buffered range (the handlers
only read it under a nonemptiness guard). -/
def bufferedStart (v : VideoState) : Rat := (v.buffered.headD (0, 0)).1

/-- video.buffered.end(0): end of the first buffered range. -/
def bufferedEnd (v : VideoState) : Rat := (v.buffered.headD (0, 0)).2

/-- The mutable per-session variables of initializePlayer: the VOD workaround
flags (vodStarted and the two timer ids, modelled as pending flags), whether
the one-shot onSeeked listener is currently attached, the media-recovery
counter, and whether hls.destroy() has been called. -/
structure SessionState where
  vodStarted : Bool
  vodTimeoutPending : Bool
  vodFallbackPending : Bool
  seekedListenerActive : Bool
  mediaRecoveryAttempts : Nat
  destroyed : Bool
deriving DecidableEq

/-- Session state right after initializePlayer declares its locals. -/
def initSession : SessionState :=
  { vodStarted := false, vodTimeoutPending := false, vodFallbackPending := false,
    seekedListenerActive := false, mediaRecoveryAttempts := 0, destroyed := false }

/-- The fixed media-recovery ceiling of the session. -/
def MAX_RECOVERY_ATTEMPTS : Nat := 3

/-- Imperative calls the handlers make on the engine, the video sink, the
timer layer, and the owner. -/
inductive Effect where
  | stopLoad
  | startLoad (pos : Option Rat)
  | scheduleSettle (delayMs : Nat)
  | scheduleFallback (delayMs : Nat)
  | seekTo (t : Rat)
  | play
  | recoverMediaError
  | destroy
  | ownerError (msg : String)
  | ownerLoad
deriving DecidableEq

/-- The three branches of the fatal-error switch: network, media, default. -/
inductive FatalKind where
  | networkError
  | mediaError
  | otherError
deriving DecidableEq

/-- Events delivered to the session: engine events, the two workaround timer
callbacks, and the seeked event of the video sink. -/
inductive SessEvent where
  | mediaAttached
  | manifestParsed
  | bufferAppended (v : VideoState)
  | settleTimer (v : VideoState)
  | seeked (v : VideoState)
  | fallbackTimer (v : VideoState)
  | fatalError (k : FatalKind) (details : String)
deriving DecidableEq

/-- MEDIA_ATTACHED handler: vodStarted = false and both vod timers cleared
(clearTimeout plus null assignment become pending = false). -/
def onMediaAttached (s : SessionState) : SessionState :=
  { s with vodStarted := false, vodTimeoutPending := false, vodFallbackPending := false }

/-- BUFFER_APPENDED handler (registered only for VOD): early return when the
workaround already started or no buffered range exists; below 10 buffered
seconds do nothing; otherwise mark started, stop loading, and schedule the
500 ms settle timer. -/
def onBufferAppended (s : SessionState) (v : VideoState) : SessionState × List Effect :=
  if s.vodStarted then (s, [])
  else if v.buffered = [] then (s, [])
  else if bufferedEnd v - bufferedStart v < 10 then (s, [])
  else
    ({ s with vodStarted := true, vodTimeoutPending := true },
     [.stopLoad, .scheduleSettle 500])

/-- The settle-timer callback: null the timer id, bail out if the workaround
was reset, otherwise seek to the start of the buffered range plus 0.1 s (or
the current position when no range remains), attach the one-shot onSeeked
listener, and schedule the 2 s fallback timer. -/
def onSettleTimer (s : SessionState) (v : VideoState) : SessionState × List Effect :=
  let s1 := { s with vodTimeoutPending := false }
  if !s1.vodStarted then (s1, [])
  else
    ({ s1 with seekedListenerActive := true, vodFallbackPending := true },
     [.seekTo (if 0 < v.buffered.length then bufferedStart v + 1 / 10 else v.currentTime),
      .scheduleFallback 2000])

/-- The seeked event of the video sink: the one-shot onSeeked listener, when
attached, removes itself, calls play(), and resumes loading from the current
position (both the resolved and the rejected play() branch call startLoad). -/
def onSeekedEvent (s : SessionState) (v : VideoState) : SessionState × List Effect :=
  if s.seekedListenerActive then
    ({ s with seekedListenerActive := false },
     [.play, .startLoad (some v.currentTime)])
  else (s, [])

/-- The fallback-timer callback: null the timer id, bail out when already
playing, otherwise remove the onSeeked listener, attempt play(), and resume
loading from the current position. -/
def onFallbackTimer (s : SessionState) (v : VideoState) : SessionState × List Effect :=
  let s1 := { s with vodFallbackPending := false }
  if !v.paused then (s1, [])
  else
    ({ s1 with seekedListenerActive := false },
     [.play, .startLoad (some v.currentTime)])

/-- The fatal branch of the ERROR handler: network errors notify the owner
and resume loading; media errors under the ceiling consume one recovery
attempt and call recoverMediaError(); at the ceiling (and for every other
fatal class) the owner gets a terminal message and the engine is destroyed. -/
def onFatalError (s : SessionState) (k : FatalKind) (details : String) :
    SessionState × List Effect :=
  match k with
  | .networkError =>
      (s, [.ownerError "Network error - trying to recover", .startLoad none])
  | .mediaError =>
      if s.mediaRecoveryAttempts < MAX_RECOVERY_ATTEMPTS then
        ({ s with mediaRecoveryAttempts := s.mediaRecoveryAttempts + 1 },
         [.recoverMediaError])
      else
        ({ s with destroyed := true },
         [.ownerError ("Playback failed: " ++ details), .destroy])
  | .otherError =>
      ({ s with destroyed := true },
       [.ownerError ("Fatal error: " ++ details), .destroy])

/-- One step of the session event loop. The BUFFER_APPENDED handler is wired
only when the stream classified VOD; a timer whose pending flag was cleared
never runs its callback (clearTimeout semantics); MANIFEST_PARSED invokes the
owner onLoad callback. -/
def sessionStep (isVod : Bool) (s : SessionState) (e : SessEvent) :
    SessionState × List Effect :=
  match e with
  | .mediaAttached => (onMediaAttached s, [])
  | .manifestParsed => (s, [.ownerLoad])
  | .bufferAppended v => if isVod then onBufferAppended s v else (s, [])
  | .settleTimer v => if s.vodTimeoutPending then onSettleTimer s v else (s, [])
  | .seeked v => onSeekedEvent s v
  | .fallbackTimer v => if s.vodFallbackPending then onFallbackTimer s v else (s, [])
  | .fatalError k d => onFatalError s k d

/-- State after delivering a list of events to the session. -/
def runState (isVod : Bool) (s : SessionState) : List SessEvent → SessionState
  | [] => s
  | e :: es => runState isVod (sessionStep isVod s e).1 es

/-- Effects emitted while delivering a list of events to the session. -/
def runEffects (isVod : Bool) (s : SessionState) : List SessEvent → List Effect
  | [] => []
  | e :: es => (sessionStep isVod s e).2 ++ runEffects isVod (sessionStep isVod s e).1 es

/-- Number of fatal media errors in an event list. -/
def countMediaErrors : List SessEvent → Nat
  | [] => 0
  | .fatalError .mediaError _ :: es => countMediaErrors es + 1
  | _ :: es => countMediaErrors es

/-- Actions performed by the cleanup of the initializePlayer effect. -/
inductive CleanupAction where
  | runCollectedDisposers (n : Nat)
  | clearHealthInterval
  | destroyEngine
deriving DecidableEq

/-- The resources the component holds around a session: the session locals,
the number of disposer closures collected in videoListenersRef, whether the
health-check interval is set, and whether hlsRef holds an engine instance. -/
structure PlayerResources where
  session : SessionState
  collectedDisposers : Nat
  healthCheckActive : Bool
  hlsPresent : Bool
deriving DecidableEq

/-- The cleanup returned by the initializePlayer effect: run every collected
disposer and empty the list, clear the health-check interval when set, and
destroy the engine instance when present. It does not touch the session
locals, so pending vod timers and the one-shot seeked listener are left
as they are. -/
def effectCleanup (r : PlayerResources) : PlayerResources × List CleanupAction :=
  ({ r with collectedDisposers := 0, healthCheckActive := false },
   [CleanupAction.runCollectedDisposers r.collectedDisposers]
     ++ (if r.healthCheckActive then [CleanupAction.clearHealthInterval] else [])
     ++ (if r.hlsPresent then [CleanupAction.destroyEngine] else []))

/-- The listeners initializePlayer adds to the video element on the engine
path: four inline diagnostic listeners and the three named handlers. -/
inductive VideoListener where
  | loadeddataDiag
  | canplayDiag
  | playingDiag
  | seekedDiag
  | waitingHandler
  | stalledHandler
  | videoErrorHandler
deriving DecidableEq

/-- All video-element listeners registered by initializePlayer (the one-shot
workaround onSeeked listener is registered later and is tracked by
SessionState.seekedListenerActive). -/
def registeredVideoListeners : List VideoListener :=
  [.loadeddataDiag, .canplayDiag, .playingDiag, .seekedDiag,
   .waitingHandler, .stalledHandler, .videoErrorHandler]

/-- The listeners removed by the single cleanup closure pushed into
videoListenersRef. -/
def disposerRemovedListeners : List VideoListener :=
  [.waitingHandler, .stalledHandler, .videoErrorHandler]

/-- A callback prop as seen by a long-lived session closure: the value
captured when the initializePlayer closure was created, and the value
currently held by the mutable ref. -/
structure CallbackHolder (α : Type) where
  captured : α
  latest : α

/-- The two sites that signal ready to the owner. -/
inductive LoadNotifyPath where
  | engineManifestParsed
  | nativeLoadedMetadata
deriving DecidableEq

/-- The sites that invoke the owner onError callback. -/
inductive ErrorNotifyPath where
  | fetchDescriptorError
  | fetchRejection
  | fatalNetworkNotice
  | terminalMediaFailure
  | otherFatalFailure
  | hlsUnsupported
deriving DecidableEq

/-- Which onLoad value each ready path reaches: the MANIFEST_PARSED handler
reads onLoadRef.current, but the native-HLS fallback registers the captured
onLoad prop directly on the loadedmetadata event. -/
def invokeOnLoad {α : Type} (h : CallbackHolder α) : LoadNotifyPath → α
  | .engineManifestParsed => h.latest
  | .nativeLoadedMetadata => h.captured

/-- Every onError site reads onErrorRef.current. -/
def invokeOnError {α : Type} (h : CallbackHolder α) : ErrorNotifyPath → α :=
  fun _ => h.latest

/-- The single onManifestLoaded site reads onManifestLoadedRef.current. -/
def invokeOnManifestLoaded {α : Type} (h : CallbackHolder α) : α := h.latest

/-- The audio-directing props of the component. -/
structure PlayerProps where
  isAudioActive : Bool
  volume : Rat
deriving DecidableEq

/-- The audio-facing state of the video sink. -/
structure VideoSink where
  muted : Bool
  volume : Rat
deriving DecidableEq

/-- The muted effect body: videoRef.current.muted = !isAudioActive, guarded
by the null check on the ref. -/
def runMutedEffect (isAudioActive : Bool) : Option VideoSink → Option VideoSink
  | none => none
  | some v => some { v with muted := !isAudioActive }

/-- The volume effect body: videoRef.current.volume = volume only when the
ref is set and isAudioActive holds. -/
def runVolumeEffect (isAudioActive : Bool) (volume : Rat) :
    Option VideoSink → Option VideoSink
  | none => none
  | some v => if isAudioActive then some { v with volume := volume } else some v

/-- One render cycle after a prop change: React re-runs the muted effect when
isAudioActive changed, and the volume effect when volume or isAudioActive
changed (their dependency lists). -/
def applyAudioEffects (prev next : PlayerProps) (sink : Option VideoSink) :
    Option VideoSink :=
  let s1 := if next.isAudioActive ≠ prev.isAudioActive
            then runMutedEffect next.isAudioActive sink else sink
  if next.isAudioActive ≠ prev.isAudioActive ∨ next.volume ≠ prev.volume
  then runVolumeEffect next.isAudioActive next.volume s1 else s1

/-- Muted flag of an optional sink. -/
def sinkMuted : Option VideoSink → Option Bool
  | none => none
  | some v => some v.muted

/-- Volume of an optional sink. -/
def sinkVolume : Option VideoSink → Option Rat
  | none => none
  | some v => some v.volume

/-- A manifest URL carrying an archival window, hence classified ON_DEMAND. -/
def demoVodUrl : String := "https://x/vod.m3u8?startTime=0&endTime=3600"

/-- A video state with twelve buffered seconds starting at zero. -/
def demoVideo : VideoState := { buffered := [(0, 12)], currentTime := 0, paused := true }

/-- A descriptor failure with a nonzero code and a nonempty message. -/
def errorManifest : StreamManifest :=
  { url := "", error_code := 500, message := some "Stream unavailable", bitrates := [] }

/-- A descriptor failure whose message is present but empty. -/
def emptyMsgManifest : StreamManifest :=
  { url := "", error_code := 500, message := some "", bitrates := [] }

/-- Component resources at a teardown that happens while the VOD settle timer
is still pending: the workaround has started, the settle timer is set, one
disposer closure was collected, and the engine instance exists. -/
def leakResources : PlayerResources :=
  { session := { initSession with vodStarted := true, vodTimeoutPending := true },
    collectedDisposers := 1, healthCheckActive := false, hlsPresent := true }

/-- An event history in which the workaround started and issued its seek, and
a media-error recovery then re-attached the media. -/
def recoveryTrace : List SessEvent :=
  [.bufferAppended demoVideo, .settleTimer demoVideo, .mediaAttached]

/-- A session with the started flag and both workaround timers set. -/
def allFlagsSession : SessionState :=
  { initSession with vodStarted := true, vodTimeoutPending := true,
                     vodFallbackPending := true }

/-- Three fatal media errors separated by re-attaches and ordinary playback
events. -/
def c10DemoTrace : List SessEvent :=
  [.fatalError .mediaError "e1", .mediaAttached, .manifestParsed,
   .fatalError .mediaError "e2", .mediaAttached, .manifestParsed,
   .fatalError .mediaError "e3", .mediaAttached, .manifestParsed]

/-- Attempts counter is untouched by the BUFFER_APPENDED handler. -/
theorem attempts_onBufferAppended (s : SessionState) (v : VideoState) :
    (onBufferAppended s v).1.mediaRecoveryAttempts = s.mediaRecoveryAttempts := by
  unfold onBufferAppended
  split
  · rfl
  · split
    · rfl
    · split
      · rfl
      · rfl

/-- Attempts counter is untouched by the settle-timer callback. -/
theorem attempts_onSettleTimer (s : SessionState) (v : VideoState) :
    (onSettleTimer s v).1.mediaRecoveryAttempts = s.mediaRecoveryAttempts := by
  by_cases h : s.vodStarted <;> simp [onSettleTimer, h]

/-- Attempts counter is untouched by the seeked-event handler. -/
theorem attempts_onSeekedEvent (s : SessionState) (v : VideoState) :
    (onSeekedEvent s v).1.mediaRecoveryAttempts = s.mediaRecoveryAttempts := by
  unfold onSeekedEvent
  split
  · rfl
  · rfl

/-- Attempts counter is untouched by the fallback-timer callback. -/
theorem attempts_onFallbackTimer (s : SessionState) (v : VideoState) :
    (onFallbackTimer s v).1.mediaRecoveryAttempts = s.mediaRecoveryAttempts := by
  unfold onFallbackTimer
  split
  · rfl
  · rfl

/-- Over any event list whose media-error count fits under the ceiling, the
attempts counter ends at its start value plus that count: no event ever
decreases or resets it. -/
theorem runState_attempts_of_le (isVod : Bool) (es : List SessEvent) :
    ∀ s : SessionState,
      s.mediaRecoveryAttempts + countMediaErrors es ≤ MAX_RECOVERY_ATTEMPTS →
      (runState isVod s es).mediaRecoveryAttempts
        = s.mediaRecoveryAttempts + countMediaErrors es := by
  induction es with
  | nil => intro s _; simp [runState, countMediaErrors]
  | cons e es ih =>
      intro s hs
      cases e with
      | mediaAttached =>
          rw [runState]
          rw [show (sessionStep isVod s .mediaAttached).1 = onMediaAttached s from rfl]
          rw [ih _ (by simpa [onMediaAttached, countMediaErrors] using hs)]
          simp [onMediaAttached, countMediaErrors]
      | manifestParsed =>
          rw [runState]
          rw [show (sessionStep isVod s .manifestParsed).1 = s from rfl]
          exact ih _ (by simpa [countMediaErrors] using hs)
      | bufferAppended v =>
          rw [runState]
          by_cases hV : isVod
          · rw [show (sessionStep isVod s (.bufferAppended v)).1 = (onBufferAppended s v).1 from
              by simp [sessionStep, hV]]
            rw [ih _ (by rw [attempts_onBufferAppended];
                         simpa [countMediaErrors] using hs)]
            rw [attempts_onBufferAppended]
            simp [countMediaErrors]
          · rw [show (sessionStep isVod s (.bufferAppended v)).1 = s from
              by simp [sessionStep, hV]]
            exact ih _ (by simpa [countMediaErrors] using hs)
      | settleTimer v =>
          rw [runState]
          by_cases hp : s.vodTimeoutPending
          · rw [show (sessionStep isVod s (.settleTimer v)).1 = (onSettleTimer s v).1 from
              by simp [sessionStep, hp]]
            rw [ih _ (by rw [attempts_onSettleTimer]; simpa [countMediaErrors] using hs)]
            rw [attempts_onSettleTimer]
            simp [countMediaErrors]
          · rw [show (sessionStep isVod s (.settleTimer v)).1 = s from
              by simp [sessionStep, hp]]
            exact ih _ (by simpa [countMediaErrors] using hs)
      | seeked v =>
          rw [runState]
          rw [show (sessionStep isVod s (.seeked v)).1 = (onSeekedEvent s v).1 from rfl]
          rw [ih _ (by rw [attempts_onSeekedEvent]; simpa [countMediaErrors] using hs)]
          rw [attempts_onSeekedEvent]
          simp [countMediaErrors]
      | fallbackTimer v =>
          rw [runState]
          by_cases hp : s.vodFallbackPending
          · rw [show (sessionStep isVod s (.fallbackTimer v)).1 = (onFallbackTimer s v).1 from
              by simp [sessionStep, hp]]
            rw [ih _ (by rw [attempts_onFallbackTimer]; simpa [countMediaErrors] using hs)]
            rw [attempts_onFallbackTimer]
            simp [countMediaErrors]
          · rw [show (sessionStep isVod s (.fallbackTimer v)).1 = s from
              by simp [sessionStep, hp]]
            exact ih _ (by simpa [countMediaErrors] using hs)
      | fatalError k d =>
          cases k with
          | networkError =>
              rw [runState]
              rw [show (sessionStep isVod s (.fatalError .networkError d)).1 = s from rfl]
              exact ih _ (by simpa [countMediaErrors] using hs)
          | mediaError =>
              have hcount : countMediaErrors (SessEvent.fatalError .mediaError d :: es)
                  = countMediaErrors es + 1 := by simp [countMediaErrors]
              have hlt : s.mediaRecoveryAttempts < MAX_RECOVERY_ATTEMPTS := by
                rw [hcount] at hs; omega
              rw [runState]
              rw [show (sessionStep isVod s (.fatalError .mediaError d)).1
                  = { s with mediaRecoveryAttempts := s.mediaRecoveryAttempts + 1 } from
                by simp [sessionStep, onFatalError, hlt]]
              rw [ih _ (by rw [hcount] at hs; simpa using by omega)]
              rw [hcount]
              simp
              omega
          | otherError =>
              rw [runState]
              rw [show (sessionStep isVod s (.fatalError .otherError d)).1
                  = { s with destroyed := true } from rfl]
              rw [ih _ (by simpa [countMediaErrors] using hs)]
              simp [countMediaErrors]

/-- C4: a settlement that finds the cancellation flag set performs no state
transition and invokes no owner callback, whatever the outcome (descriptor
with any error code, Error rejection, or non-Error rejection) was. -/
theorem c4_stale_resolution_noop (st : CtrlState) (res : FetchOutcome) :
    settleResolution true st res = (st, []) := by
  simp [settleResolution]

/-- C5 counterexample: a descriptor with nonzero error_code and a present but
empty message makes the controller invoke onError with the generic fallback
text, not with the descriptor message (the empty string), so the claim as
stated fails at this input. -/
theorem c5_empty_message_counterexample :
    emptyMsgManifest.error_code ≠ 0
    ∧ emptyMsgManifest.message = some ""
    ∧ (settleResolution false initCtrl (.descriptor emptyMsgManifest)).2
        = [OwnerCall.onError manifestLoadFallbackMsg]
    ∧ (settleResolution false initCtrl (.descriptor emptyMsgManifest)).2
        ≠ [OwnerCall.onError ""] := by
  refine ⟨by decide, rfl, by decide, by decide⟩

/-- C5 amended: whenever a non-cancelled resolution fails, the controller
stores the error, stops loading, renders the error panel instead of the video
surface, and invokes onError exactly once; the message is the descriptor
message when present and nonempty (the generic load fallback when absent or
empty), exactly the Error message for an Error rejection, and the fixed fetch
fallback for a non-Error rejection. -/
theorem c5_resolution_failure_surfacing (st : CtrlState) (m : StreamManifest) (e : String) :
    (m.error_code ≠ 0 →
       settleResolution false st (.descriptor m)
         = ({ st with manifestError := some (orFallback m.message manifestLoadFallbackMsg),
                      isLoadingManifest := false },
            [OwnerCall.onError (orFallback m.message manifestLoadFallbackMsg)])
       ∧ renderView (settleResolution false st (.descriptor m)).1
           = .errorPanel (orFallback m.message manifestLoadFallbackMsg))
    ∧ (settleResolution false st (.rejectedError e)
         = ({ st with manifestError := some e, isLoadingManifest := false },
            [OwnerCall.onError e])
       ∧ renderView (settleResolution false st (.rejectedError e)).1 = .errorPanel e)
    ∧ (settleResolution false st .rejectedOther
         = ({ st with manifestError := some manifestFetchFallbackMsg,
                      isLoadingManifest := false },
            [OwnerCall.onError manifestFetchFallbackMsg])
       ∧ renderView (settleResolution false st .rejectedOther).1
           = .errorPanel manifestFetchFallbackMsg)
    ∧ (m.message = none → orFallback m.message manifestLoadFallbackMsg = manifestLoadFallbackMsg)
    ∧ (∀ msg : String, m.message = some msg → msg ≠ "" →
        orFallback m.message manifestLoadFallbackMsg = msg) := by
  refine ⟨?_, ⟨?_, ?_⟩, ⟨?_, ?_⟩, ?_, ?_⟩
  · intro hc
    refine ⟨?_, ?_⟩ <;> simp [settleResolution, renderView, hc]
  · simp [settleResolution]
  · simp [settleResolution, renderView]
  · simp [settleResolution]
  · simp [settleResolution, renderView]
  · intro hm
    simp [orFallback, hm]
  · intro msg hm hne
    simp [orFallback, hm, hne]

/-- C5 witness: the amended theorem applied at the concrete failing
descriptor with message Stream unavailable. -/
theorem c5_resolution_failure_surfacing_witness :
    (settleResolution false initCtrl (.descriptor errorManifest)
       = ({ initCtrl with
              manifestError := some (orFallback errorManifest.message manifestLoadFallbackMsg),
              isLoadingManifest := false },
          [OwnerCall.onError (orFallback errorManifest.message manifestLoadFallbackMsg)])
     ∧ renderView (settleResolution false initCtrl (.descriptor errorManifest)).1
         = .errorPanel (orFallback errorManifest.message manifestLoadFallbackMsg))
    ∧ orFallback errorManifest.message manifestLoadFallbackMsg = "Stream unavailable" := by
  constructor
  · exact (c5_resolution_failure_surfacing initCtrl errorManifest "Network error").1 (by decide)
  · exact (c5_resolution_failure_surfacing initCtrl errorManifest "Network error").2.2.2.2
      "Stream unavailable" rfl (by decide)

/-- C7 counterexample: the inline loadeddata diagnostic listener is
registered on the video element but is not among the listeners the collected
disposer removes, so a registered listener outlives its session. -/
theorem c7_dangling_listener_counterexample :
    VideoListener.loadeddataDiag ∈ registeredVideoListeners
    ∧ VideoListener.loadeddataDiag ∉ disposerRemovedListeners := by
  refine ⟨by decide, by decide⟩

/-- C7 amended: the disposer collected in videoListenersRef removes exactly
the waiting, stalled, and error handlers (each of which was registered); the
four inline diagnostic listeners are registered with no disposer and are not
removed; and the workaround one-shot seeked listener, tracked in the session
state, is untouched by the effect cleanup. -/
theorem c7_listener_disposal_amended (r : PlayerResources) :
    disposerRemovedListeners.all (fun l => registeredVideoListeners.contains l) = true
    ∧ ([VideoListener.loadeddataDiag, VideoListener.canplayDiag,
        VideoListener.playingDiag, VideoListener.seekedDiag].all
          (fun l => registeredVideoListeners.contains l
            && !(disposerRemovedListeners.contains l)) = true)
    ∧ (effectCleanup r).1.session.seekedListenerActive = r.session.seekedListenerActive := by
  refine ⟨by decide, by decide, rfl⟩

/-- C8 counterexample: with distinct captured and latest onLoad values, the
native-HLS fallback ready signal invokes the captured value, not the latest
one, so the claim as stated fails on that notification path. -/
theorem c8_stale_native_onload_counterexample :
    invokeOnLoad (CallbackHolder.mk 0 1 : CallbackHolder Nat) .nativeLoadedMetadata = 0
    ∧ (CallbackHolder.mk 0 1 : CallbackHolder Nat).latest = 1
    ∧ (0 : Nat) ≠ 1 := by
  refine ⟨rfl, rfl, by decide⟩

/-- C8 amended: every onError site, the MANIFEST_PARSED onLoad site, and the
onManifestLoaded site read the mutable ref and hence the latest callback
value; the native-HLS fallback alone registers the captured onLoad prop on
loadedmetadata and therefore reaches the captured value. -/
theorem c8_callback_indirection_amended (α : Type) (h : CallbackHolder α) :
    (∀ p : ErrorNotifyPath, invokeOnError h p = h.latest)
    ∧ invokeOnLoad h LoadNotifyPath.engineManifestParsed = h.latest
    ∧ invokeOnManifestLoaded h = h.latest
    ∧ invokeOnLoad h LoadNotifyPath.nativeLoadedMetadata = h.captured := by
  exact ⟨fun _ => rfl, rfl, rfl, rfl⟩

/-- C1: for a session whose manifest URL classifies ON_DEMAND, the stall
workaround follows the protocol: a buffer-appended event with no buffered
range does nothing; below ten buffered seconds nothing happens; the first
event at or above ten seconds with the workaround not yet started marks it
started, stops segment loading, and schedules the 500 ms settle timer; the
settle timer seeks to the buffered start plus 0.1 s (or the current position
when no range remains) and arms the seeked listener; and the confirmed seek
plays and then resumes loading from the current position. -/
theorem c1_vod_stall_workaround (url : String) (hvod : isVodStream url = true)
    (s : SessionState) (v : VideoState) :
    (v.buffered = [] → sessionStep (isVodStream url) s (.bufferAppended v) = (s, []))
    ∧ (bufferedEnd v - bufferedStart v < 10 →
        sessionStep (isVodStream url) s (.bufferAppended v) = (s, []))
    ∧ (s.vodStarted = false → v.buffered ≠ [] → 10 ≤ bufferedEnd v - bufferedStart v →
        sessionStep (isVodStream url) s (.bufferAppended v)
          = ({ s with vodStarted := true, vodTimeoutPending := true },
             [Effect.stopLoad, Effect.scheduleSettle 500]))
    ∧ (s.vodStarted = true → s.vodTimeoutPending = true →
        sessionStep (isVodStream url) s (.settleTimer v)
          = ({ s with vodTimeoutPending := false, seekedListenerActive := true,
                      vodFallbackPending := true },
             [Effect.seekTo (if 0 < v.buffered.length then bufferedStart v + 1 / 10
                             else v.currentTime),
              Effect.scheduleFallback 2000]))
    ∧ (s.seekedListenerActive = true →
        sessionStep (isVodStream url) s (.seeked v)
          = ({ s with seekedListenerActive := false },
             [Effect.play, Effect.startLoad (some v.currentTime)])) := by
  rw [hvod]
  refine ⟨?_, ?_, ?_, ?_, ?_⟩
  · intro hb
    cases hs : s.vodStarted <;> simp [sessionStep, onBufferAppended, hs, hb]
  · intro hlt
    cases hs : s.vodStarted
    · by_cases hb : v.buffered = [] <;> simp [sessionStep, onBufferAppended, hs, hb, hlt]
    · simp [sessionStep, onBufferAppended, hs]
  · intro hs hb hge
    have hnl : ¬ bufferedEnd v - bufferedStart v < 10 := not_lt.mpr hge
    simp [sessionStep, onBufferAppended, hs, hb, hnl]
  · intro hs hp
    simp [sessionStep, onSettleTimer, hs, hp]
  · intro hl
    simp [sessionStep, onSeekedEvent, hl]

/-- C1 witness: the protocol run on the concrete VOD URL and the concrete
twelve-second buffer. -/
theorem c1_vod_stall_workaround_witness :
    isVodStream demoVodUrl = true
    ∧ sessionStep (isVodStream demoVodUrl) initSession (.bufferAppended demoVideo)
        = ({ initSession with vodStarted := true, vodTimeoutPending := true },
           [Effect.stopLoad, Effect.scheduleSettle 500])
    ∧ sessionStep (isVodStream demoVodUrl)
        { initSession with vodStarted := true, vodTimeoutPending := true }
        (.settleTimer demoVideo)
        = ({ initSession with vodStarted := true, vodTimeoutPending := false,
                              seekedListenerActive := true, vodFallbackPending := true },
           [Effect.seekTo (if 0 < demoVideo.buffered.length
                           then bufferedStart demoVideo + 1 / 10
                           else demoVideo.currentTime),
            Effect.scheduleFallback 2000])
    ∧ sessionStep (isVodStream demoVodUrl)
        { initSession with vodStarted := true, seekedListenerActive := true }
        (.seeked demoVideo)
        = ({ initSession with vodStarted := true, seekedListenerActive := false },
           [Effect.play, Effect.startLoad (some demoVideo.currentTime)]) := by
  refine ⟨by decide, ?_, ?_, ?_⟩
  · exact (c1_vod_stall_workaround demoVodUrl (by decide) initSession demoVideo).2.2.1
      rfl (by decide) (by norm_num [bufferedEnd, bufferedStart, demoVideo])
  · exact (c1_vod_stall_workaround demoVodUrl (by decide)
      { initSession with vodStarted := true, vodTimeoutPending := true } demoVideo).2.2.2.1
      rfl rfl
  · exact (c1_vod_stall_workaround demoVodUrl (by decide)
      { initSession with vodStarted := true, seekedListenerActive := true } demoVideo).2.2.2.2
      rfl

/-- C2: a fatal media error with the attempts counter under the ceiling
consumes one attempt and calls recoverMediaError() only; at the ceiling it
reports the terminal playback-failure message and destroys the engine; and
from a fresh session three consecutive fatal media errors produce exactly
three recoveries while the fourth produces the terminal report and destroy. -/
theorem c2_media_recovery_ceiling (isVod : Bool) (s : SessionState) (d : String) :
    (s.mediaRecoveryAttempts < MAX_RECOVERY_ATTEMPTS →
       sessionStep isVod s (.fatalError .mediaError d)
         = ({ s with mediaRecoveryAttempts := s.mediaRecoveryAttempts + 1 },
            [Effect.recoverMediaError]))
    ∧ (MAX_RECOVERY_ATTEMPTS ≤ s.mediaRecoveryAttempts →
       sessionStep isVod s (.fatalError .mediaError d)
         = ({ s with destroyed := true },
            [Effect.ownerError ("Playback failed: " ++ d), Effect.destroy]))
    ∧ (runEffects isVod initSession (List.replicate 3 (SessEvent.fatalError .mediaError d))
         = [Effect.recoverMediaError, Effect.recoverMediaError, Effect.recoverMediaError])
    ∧ (sessionStep isVod
         (runState isVod initSession (List.replicate 3 (SessEvent.fatalError .mediaError d)))
         (.fatalError .mediaError d)
       = ({ runState isVod initSession (List.replicate 3 (SessEvent.fatalError .mediaError d))
              with destroyed := true },
          [Effect.ownerError ("Playback failed: " ++ d), Effect.destroy])) := by
  refine ⟨?_, ?_, ?_, ?_⟩
  · intro h
    simp [sessionStep, onFatalError, h]
  · intro h
    have hn : ¬ s.mediaRecoveryAttempts < MAX_RECOVERY_ATTEMPTS := not_lt.mpr h
    simp [sessionStep, onFatalError, hn]
  · simp [List.replicate, runEffects, runState, sessionStep, onFatalError,
          initSession, MAX_RECOVERY_ATTEMPTS]
  · simp [List.replicate, runState, sessionStep, onFatalError,
          initSession, MAX_RECOVERY_ATTEMPTS]

/-- C2 witness: the ceiling behavior at the concrete counter values two and
three. -/
theorem c2_media_recovery_ceiling_witness :
    sessionStep true { initSession with mediaRecoveryAttempts := 2 }
        (.fatalError .mediaError "err")
      = ({ initSession with mediaRecoveryAttempts := 3 }, [Effect.recoverMediaError])
    ∧ sessionStep true { initSession with mediaRecoveryAttempts := 3 }
        (.fatalError .mediaError "err")
      = ({ initSession with mediaRecoveryAttempts := 3, destroyed := true },
         [Effect.ownerError ("Playback failed: " ++ "err"), Effect.destroy]) := by
  constructor
  · exact (c2_media_recovery_ceiling true
      { initSession with mediaRecoveryAttempts := 2 } "err").1 (by decide)
  · exact (c2_media_recovery_ceiling true
      { initSession with mediaRecoveryAttempts := 3 } "err").2.1 (by decide)

/-- C3 counterexample: a teardown taken while the settle timer is pending
leaves that timer pending (the cleanup never touches the workaround timers),
and the surviving timer then fires and seeks the video sink, so a residual
callback of the torn-down session runs afterwards. -/
theorem c3_pending_vod_timer_counterexample :
    (effectCleanup leakResources).1.session.vodTimeoutPending = true
    ∧ (sessionStep true (effectCleanup leakResources).1.session (.settleTimer demoVideo)).2
        = [Effect.seekTo (bufferedStart demoVideo + 1 / 10), Effect.scheduleFallback 2000] := by
  constructor
  · rfl
  · simp [effectCleanup, leakResources, sessionStep, onSettleTimer, initSession, demoVideo]

/-- C3 amended: the effect cleanup runs the collected disposers, clears an
active health-check interval exactly once, and destroys a present engine
instance exactly once, but it leaves the session state (and with it any
pending VOD-workaround settle or fallback timer) untouched; the workaround
timers are cancelled only by the media-attached reset, not at teardown. -/
theorem c3_teardown_amended (r : PlayerResources) :
    ((effectCleanup r).2.count CleanupAction.clearHealthInterval
        = if r.healthCheckActive then 1 else 0)
    ∧ ((effectCleanup r).2.count CleanupAction.destroyEngine
        = if r.hlsPresent then 1 else 0)
    ∧ (effectCleanup r).1.healthCheckActive = false
    ∧ (effectCleanup r).1.collectedDisposers = 0
    ∧ CleanupAction.runCollectedDisposers r.collectedDisposers ∈ (effectCleanup r).2
    ∧ (effectCleanup r).1.session = r.session := by
  rcases r with ⟨sess, n, hc, hp⟩
  cases hc <;> cases hp <;>
    simp [effectCleanup, List.count_cons, List.count_append, List.count_nil]

/-- C6 counterexample: the workaround starts, issues its seek, and is then
superseded by a media re-attach; the reset clears the started flag and both
timers, yet the one-shot seeked listener stays attached and the late seeked
event still plays and resumes loading in the recovered session, so the
superseded run can still play the replaced session. -/
theorem c6_stale_seeked_listener_counterexample :
    (runState true initSession recoveryTrace).vodStarted = false
    ∧ (runState true initSession recoveryTrace).vodTimeoutPending = false
    ∧ (runState true initSession recoveryTrace).vodFallbackPending = false
    ∧ (runState true initSession recoveryTrace).seekedListenerActive = true
    ∧ (sessionStep true (runState true initSession recoveryTrace) (.seeked demoVideo)).2
        = [Effect.play, Effect.startLoad (some demoVideo.currentTime)] := by
  norm_num [recoveryTrace, runState, sessionStep, onBufferAppended, onSettleTimer,
            onMediaAttached, onSeekedEvent, bufferedEnd, bufferedStart, demoVideo,
            initSession]

/-- C6 amended: every media-attached event resets the started flag and
cancels both workaround timers, a cancelled timer never runs its callback
afterwards, and the workaround can start again in the recovered session; the
one-shot seeked listener, however, is not removed by the reset. -/
theorem c6_media_attach_reset_amended (isVod : Bool) (s : SessionState) (v : VideoState) :
    sessionStep isVod s .mediaAttached
      = ({ s with vodStarted := false, vodTimeoutPending := false,
                  vodFallbackPending := false }, [])
    ∧ sessionStep isVod (onMediaAttached s) (.settleTimer v) = (onMediaAttached s, [])
    ∧ sessionStep isVod (onMediaAttached s) (.fallbackTimer v) = (onMediaAttached s, [])
    ∧ (onMediaAttached s).seekedListenerActive = s.seekedListenerActive
    ∧ (isVod = true → v.buffered ≠ [] → 10 ≤ bufferedEnd v - bufferedStart v →
        sessionStep isVod (onMediaAttached s) (.bufferAppended v)
          = ({ onMediaAttached s with vodStarted := true, vodTimeoutPending := true },
             [Effect.stopLoad, Effect.scheduleSettle 500])) := by
  refine ⟨rfl, ?_, ?_, rfl, ?_⟩
  · simp [sessionStep, onMediaAttached]
  · simp [sessionStep, onMediaAttached]
  · intro hV hb hge
    have hnl : ¬ bufferedEnd v - bufferedStart v < 10 := not_lt.mpr hge
    simp [sessionStep, onMediaAttached, onBufferAppended, hV, hb, hnl]

/-- C6 witness: the amended theorem applied to a session with every
workaround flag set and to the concrete twelve-second buffer. -/
theorem c6_media_attach_reset_amended_witness :
    sessionStep true allFlagsSession .mediaAttached
      = ({ allFlagsSession with vodStarted := false, vodTimeoutPending := false,
                                vodFallbackPending := false }, [])
    ∧ sessionStep true (onMediaAttached allFlagsSession) (.bufferAppended demoVideo)
      = ({ onMediaAttached allFlagsSession with vodStarted := true,
                                                vodTimeoutPending := true },
         [Effect.stopLoad, Effect.scheduleSettle 500]) := by
  constructor
  · exact (c6_media_attach_reset_amended true allFlagsSession demoVideo).1
  · exact (c6_media_attach_reset_amended true allFlagsSession demoVideo).2.2.2.2
      rfl (by decide) (by norm_num [bufferedEnd, bufferedStart, demoVideo])

/-- C9: after any prop change, a changed isAudioActive leaves the sink muted
exactly when the surface is not the active audio target; a changed volume
with the surface active is applied to the sink; and while the surface is not
active no render cycle changes the sink volume. -/
theorem c9_audio_routing (prev next : PlayerProps) (v : VideoSink) :
    (next.isAudioActive ≠ prev.isAudioActive →
       sinkMuted (applyAudioEffects prev next (some v)) = some (!next.isAudioActive))
    ∧ (next.isAudioActive = true → next.volume ≠ prev.volume →
       sinkVolume (applyAudioEffects prev next (some v)) = some next.volume)
    ∧ (next.isAudioActive = false →
       sinkVolume (applyAudioEffects prev next (some v)) = some v.volume) := by
  refine ⟨?_, ?_, ?_⟩
  · intro hne
    cases ha : next.isAudioActive <;> cases hp : prev.isAudioActive
    · exact absurd (ha.trans hp.symm) hne
    · simp [applyAudioEffects, runMutedEffect, runVolumeEffect, sinkMuted, ha, hp]
    · simp [applyAudioEffects, runMutedEffect, runVolumeEffect, sinkMuted, ha, hp]
    · exact absurd (ha.trans hp.symm) hne
  · intro ha hv
    cases hp : prev.isAudioActive <;>
      simp [applyAudioEffects, runMutedEffect, runVolumeEffect, sinkVolume, ha, hp, hv]
  · intro ha
    cases hp : prev.isAudioActive <;> by_cases hv : next.volume = prev.volume <;>
      simp [applyAudioEffects, runMutedEffect, runVolumeEffect, sinkVolume, ha, hp, hv]

/-- C9 witness: the routing contract at concrete prop transitions (audio
activated with a volume change, and a volume change on an inactive surface). -/
theorem c9_audio_routing_witness :
    sinkMuted (applyAudioEffects (PlayerProps.mk false 1) (PlayerProps.mk true 0)
        (some (VideoSink.mk true 1))) = some (!true)
    ∧ sinkVolume (applyAudioEffects (PlayerProps.mk false 1) (PlayerProps.mk true 0)
        (some (VideoSink.mk true 1))) = some (PlayerProps.mk true 0).volume
    ∧ sinkVolume (applyAudioEffects (PlayerProps.mk false 1) (PlayerProps.mk false 0)
        (some (VideoSink.mk true 1))) = some (VideoSink.mk true 1).volume := by
  refine ⟨?_, ?_, ?_⟩
  · exact (c9_audio_routing (PlayerProps.mk false 1) (PlayerProps.mk true 0)
      (VideoSink.mk true 1)).1 (by decide)
  · exact (c9_audio_routing (PlayerProps.mk false 1) (PlayerProps.mk true 0)
      (VideoSink.mk true 1)).2.1 rfl (by simp)
  · exact (c9_audio_routing (PlayerProps.mk false 1) (PlayerProps.mk false 0)
      (VideoSink.mk true 1)).2.2 rfl

/-- C10: the media-recovery counter never decreases under any session event,
and after any event history containing exactly three fatal media errors
(with arbitrarily many re-attaches and other events between them) the next
fatal media error takes the terminal branch: owner error and destroy, with
no further recovery attempt. -/
theorem c10_recovery_budget_never_replenished (isVod : Bool) (d : String) :
    (∀ (s : SessionState) (e : SessEvent),
        s.mediaRecoveryAttempts ≤ (sessionStep isVod s e).1.mediaRecoveryAttempts)
    ∧ (∀ es : List SessEvent, countMediaErrors es = 3 →
        sessionStep isVod (runState isVod initSession es) (.fatalError .mediaError d)
          = ({ runState isVod initSession es with destroyed := true },
             [Effect.ownerError ("Playback failed: " ++ d), Effect.destroy])) := by
  constructor
  · intro s e
    cases e with
    | mediaAttached => simp [sessionStep, onMediaAttached]
    | manifestParsed => simp [sessionStep]
    | bufferAppended v =>
        by_cases hV : isVod <;> simp [sessionStep, hV, attempts_onBufferAppended]
    | settleTimer v =>
        by_cases hp : s.vodTimeoutPending <;> simp [sessionStep, hp, attempts_onSettleTimer]
    | seeked v => simp [sessionStep, attempts_onSeekedEvent]
    | fallbackTimer v =>
        by_cases hp : s.vodFallbackPending <;> simp [sessionStep, hp, attempts_onFallbackTimer]
    | fatalError k dd =>
        cases k with
        | networkError => simp [sessionStep, onFatalError]
        | mediaError =>
            by_cases h : s.mediaRecoveryAttempts < MAX_RECOVERY_ATTEMPTS <;>
              simp [sessionStep, onFatalError, h]
        | otherError => simp [sessionStep, onFatalError]
  · intro es hcount
    have ha : (runState isVod initSession es).mediaRecoveryAttempts = 3 := by
      have := runState_attempts_of_le isVod es initSession
        (by simp [initSession, hcount, MAX_RECOVERY_ATTEMPTS])
      simpa [initSession, hcount] using this
    have hn : ¬ (runState isVod initSession es).mediaRecoveryAttempts
        < MAX_RECOVERY_ATTEMPTS := by
      rw [ha]; simp [MAX_RECOVERY_ATTEMPTS]
    simp [sessionStep, onFatalError, hn]

/-- C10 witness: the terminal fourth media error after the concrete history
of three recovered media errors interleaved with re-attaches and playback
events. -/
theorem c10_recovery_budget_never_replenished_witness :
    countMediaErrors c10DemoTrace = 3
    ∧ sessionStep true (runState true initSession c10DemoTrace)
        (.fatalError .mediaError "final")
      = ({ runState true initSession c10DemoTrace with destroyed := true },
         [Effect.ownerError ("Playback failed: " ++ "final"), Effect.destroy]) := by
  refine ⟨by decide, ?_⟩
  exact (c10_recovery_budget_never_replenished true "final").2 c10DemoTrace (by decide)

end LoonieVision
